import Mathlib

/-!
Verification of the fiber_tracing middleware (src/main.go) via a shallow
embedding.  The per-request handler returned by `NewWithConfig` is modelled
as a pure function from a finalized configuration, a request context and the
behaviour of the downstream handler chain to a trace of tracing-API events
(span start, tag writes, request-local store write, handler invocation, span
finish) together with the value the middleware returns to its caller.
-/

namespace FiberTracing

/-- Tag values settable on a span (`span.SetTag` / `ext.*.Set`). -/
inductive TagValue
  | str (s : String)
  | num (n : Nat)
  | boolVal (b : Bool)
deriving DecidableEq

/-- Observable tracing-side events of one middleware invocation, in order. -/
inductive Event
  | startRoot (op : String)
  | startChild (op : String)
  | setTag (key : String) (val : TagValue)
  | storeLocal (key : String)
  | nextInvoked
  | finish
deriving DecidableEq

/-- A Go `error` as the middleware distinguishes it: `errors.As(err,
&httpError)` succeeds exactly for a structured `*fiber.Error` (code and
message); every other error only exposes `Error()` text. -/
inductive GoErr
  | fiberError (code : Int) (message : String)
  | plain (text : String)
deriving DecidableEq

/-- How one invocation of `ctx.Next()` exits: a returned value (possibly a
non-nil error) or a panic unwinding through the middleware. -/
inductive Outcome
  | returns (err : Option GoErr)
  | panics
deriving DecidableEq

/-- The request context data the middleware reads (`*fiber.Ctx`). -/
structure Ctx where
  method : String
  path : String
  hostname : String
  ip : String
  originalURL : String
  requestHeaders : List (String × String)
deriving DecidableEq

/-- Behaviour of the downstream handler chain for one request: the response
status code observed once the chain has exited (`ctx.Response().StatusCode()`
as read in the deferred block; the fiber default before any write is 200) and
the way `ctx.Next()` exits. -/
structure Handler where
  statusAfter : Int
  outcome : Outcome
deriving DecidableEq

/-- The tracing client as the middleware uses it: only the success or failure
of `tr.Extract` on a header carrier influences control flow. -/
structure Tracer where
  extractOk : List (String × String) → Bool

/-- `opentracing.NoopTracer`: its `Extract` always reports
`ErrSpanContextNotFound`, i.e. extraction never succeeds. -/
def noopTracer : Tracer := { extractOk := fun _ => false }

/-- Byte validity test of Go `textproto.validHeaderFieldByte`: ASCII digits,
letters, and the token characters (codes 33, 35, 36, 37, 38, 39, 42, 43, 45,
46, 94, 95, 96, 124, 126). -/
def validHeaderFieldByte (c : Char) : Bool :=
  let n := c.toNat
  decide ((48 ≤ n ∧ n ≤ 57) ∨ (65 ≤ n ∧ n ≤ 90) ∨ (97 ≤ n ∧ n ≤ 122) ∨
    n ∈ ([33, 35, 36, 37, 38, 39, 42, 43, 45, 46, 94, 95, 96, 124, 126] : List Nat))

/-- Case folding loop of Go `textproto.CanonicalMIMEHeaderKey`: uppercase the
first letter and every letter following a hyphen, lowercase the rest. -/
def canonChars : Bool → List Char → List Char
  | _, [] => []
  | upper, c :: rest =>
      let c2 := if upper then c.toUpper else c.toLower
      c2 :: canonChars (c2 == '-') rest

/-- Go `textproto.CanonicalMIMEHeaderKey`: keys holding an invalid byte are
returned unchanged, otherwise the canonical capitalisation is produced. -/
def canonicalKey (s : String) : String :=
  if s.data.all validHeaderFieldByte then String.mk (canonChars true s.data) else s

/-- Go `http.Header.Set`: replace every value stored under the canonical key
with the single new value. -/
def headerSet (h : List (String × String)) (k v : String) : List (String × String) :=
  h.filter (fun p => p.1 ≠ k) ++ [(k, v)]

/-- The header carrier built per request: `hdr := make(http.Header)` followed
by `hdr.Set(k, v)` for every request header visited. -/
def buildCarrier (headers : List (String × String)) : List (String × String) :=
  headers.foldl (fun h kv => headerSet h (canonicalKey kv.1) kv.2) []

/-- The user-facing `Config` struct; `none` stands for a nil Go field, `""`
for an unset string field.  A `Modify` hook is modelled by the tag writes it
performs on the span. -/
structure Config where
  tracer : Option Tracer := none
  parentSpanKey : String := ""
  componentName : String := ""
  operationName : Option (Ctx → String) := none
  filter : Option (Ctx → Bool) := none
  modify : Option (Ctx → List (String × TagValue)) := none

/-- Constant `DefaultParentSpanKey`. -/
def DefaultParentSpanKey : String := "#defaultTracingParentSpanKey"

/-- Constant `DefaultComponentName`. -/
def DefaultComponentName : String := "fiber/v2"

/-- The tag writes of `DefaultConfig.Modify`: HTTP method, URL, component,
remote address, path and host. -/
def defaultModify (ctx : Ctx) : List (String × TagValue) :=
  [("http.method", TagValue.str ctx.method),
   ("http.url", TagValue.str ctx.originalURL),
   ("component", TagValue.str DefaultComponentName),
   ("http.remote_addr", TagValue.str ctx.ip),
   ("http.path", TagValue.str ctx.path),
   ("http.host", TagValue.str ctx.hostname)]

/-- `DefaultConfig.OperationName`. -/
def defaultOperationName (ctx : Ctx) : String :=
  "HTTP " ++ ctx.method ++ " URL: " ++ ctx.path

/-- The package-level `DefaultConfig` value. -/
def DefaultConfig : Config :=
  { tracer := none
    parentSpanKey := DefaultParentSpanKey
    componentName := DefaultComponentName
    operationName := some defaultOperationName
    filter := none
    modify := some defaultModify }

/-- The configuration after the nil/empty checks at the head of
`NewWithConfig` have run: every field holds a usable value. -/
structure FinalConfig where
  tracer : Tracer
  parentSpanKey : String
  componentName : String
  operationName : Ctx → String
  filter : Option (Ctx → Bool)
  modify : Ctx → List (String × TagValue)

/-- The config-initialisation prefix of `NewWithConfig`: take the first
configuration of the variadic list (or the zero value), then backfill each
missing field with its default. -/
def finalizeConfig (config : List Config) : FinalConfig :=
  let cfg : Config := match config with
    | [] => {}
    | c :: _ => c
  { tracer := cfg.tracer.getD noopTracer
    parentSpanKey :=
      if cfg.parentSpanKey = "" then DefaultConfig.parentSpanKey else cfg.parentSpanKey
    componentName :=
      if cfg.componentName = "" then DefaultConfig.componentName else cfg.componentName
    operationName := cfg.operationName.getD defaultOperationName
    filter := cfg.filter
    modify := cfg.modify.getD defaultModify }

/-- `fiber.StatusOK`. -/
def StatusOK : Int := 200

/-- `fiber.StatusInternalServerError`. -/
def StatusInternalServerError : Int := 500

/-- Go conversion `uint16(status)` for `status` of type `int`: the value
reduced modulo 2^16. -/
def uint16 (n : Int) : Nat := (n % 65536).toNat

/-- The value of the local variable `err` when the deferred block runs: the
value returned by `ctx.Next()`, or still nil when `ctx.Next()` panicked
(the assignment `err = ctx.Next()` never completed). -/
def errVar : Outcome → Option GoErr
  | Outcome.returns e => e
  | Outcome.panics => none

/-- `httpError.Message` for a structured error, `err.Error()` otherwise. -/
def errMessage : GoErr → String
  | GoErr.fiberError _ m => m
  | GoErr.plain t => t

/-- The status value after the error-reconciliation steps of the deferred
block: start from the response status; a structured error with nonzero code
overrides it; any error still leaving it at 200 forces 500. -/
def finalStatus (err : Option GoErr) (status0 : Int) : Int :=
  match err with
  | none => status0
  | some e =>
      let status1 :=
        match e with
        | GoErr.fiberError code _ => if code ≠ 0 then code else status0
        | GoErr.plain _ => status0
      if status1 = StatusOK then StatusInternalServerError else status1

/-- The deferred span-finish block of `NewWithConfig`: read the status, on a
non-nil `err` record the error message tag and reconcile the status, write
the HTTP status tag (as uint16), set the error flag when the status is a
server error, and finish the span. -/
def deferBlock (err : Option GoErr) (status0 : Int) : List Event :=
  let status := finalStatus err status0
  (match err with
   | none => []
   | some e => [Event.setTag "error.message" (TagValue.str (errMessage e))])
  ++ [Event.setTag "http.status_code" (TagValue.num (uint16 status))]
  ++ (if status ≥ StatusInternalServerError then [Event.setTag "error" (TagValue.boolVal true)] else [])
  ++ [Event.finish]

/-- The skip test at the head of the per-request closure:
`cfg.Filter != nil && cfg.Filter(ctx)`. -/
def isFiltered (cfg : FinalConfig) (ctx : Ctx) : Bool :=
  match cfg.filter with
  | some f => f ctx
  | none => false

/-- One middleware invocation: the ordered tracing events it causes and the
value it hands back to its caller (or the panic it lets through). -/
structure RunResult where
  events : List Event
  result : Outcome
deriving DecidableEq

/-- The per-request closure returned by `NewWithConfig`, for a finalized
configuration.  The filtered path only calls `ctx.Next()`.  Otherwise the
operation name is computed, the header carrier built, a root span started on
extraction failure or an RPC-server continuation on success, the modify hook
tags written, the span stored under the parent-span key, `ctx.Next()` invoked,
and — deferred, hence on every exit — the finish block run with the `err`
variable as assigned (or not) by `err = ctx.Next()`. -/
def runHandler (cfg : FinalConfig) (ctx : Ctx) (h : Handler) : RunResult :=
  if isFiltered cfg ctx then
    { events := [Event.nextInvoked], result := h.outcome }
  else
    let operationName := cfg.operationName ctx
    let hdr := buildCarrier ctx.requestHeaders
    let startEvent :=
      if cfg.tracer.extractOk hdr then Event.startChild operationName
      else Event.startRoot operationName
    let modifyEvents := (cfg.modify ctx).map (fun kv => Event.setTag kv.1 kv.2)
    { events := startEvent ::
        (modifyEvents ++
          Event.storeLocal cfg.parentSpanKey :: Event.nextInvoked ::
            deferBlock (errVar h.outcome) h.statusAfter)
      result := h.outcome }

/-- `NewWithConfig`: finalize the configuration and return the bound
per-request function. -/
def NewWithConfig (config : List Config) : Ctx → Handler → RunResult :=
  runHandler (finalizeConfig config)

/-- `New`: the convenience form taking a bare tracer, starting from
`DefaultConfig`. -/
def New (tracer : Tracer) : Ctx → Handler → RunResult :=
  NewWithConfig [{ DefaultConfig with tracer := some tracer }]

/-- Weight 1 for span-start events. -/
def startWeight : Event → Nat
  | Event.startRoot _ => 1
  | Event.startChild _ => 1
  | _ => 0

/-- Weight 1 for the span-finish event. -/
def finishWeight : Event → Nat
  | Event.finish => 1
  | _ => 0

/-- Weight 1 for the handler-invocation event. -/
def nextWeight : Event → Nat
  | Event.nextInvoked => 1
  | _ => 0

/-- Number of spans started in a trace. -/
def startCount (es : List Event) : Nat := (es.map startWeight).sum

/-- Number of span finishes in a trace. -/
def finishCount (es : List Event) : Nat := (es.map finishWeight).sum

/-- Number of invocations of the next handler in a trace. -/
def nextCount (es : List Event) : Nat := (es.map nextWeight).sum

/-- A concrete request context: a GET request to /widgets with no headers. -/
def sampleCtx : Ctx :=
  { method := "GET"
    path := "/widgets"
    hostname := "example.com"
    ip := "127.0.0.1"
    originalURL := "/widgets"
    requestHeaders := [] }

/-- A concrete downstream handler chain: returns nil with status 200. -/
def sampleHandler : Handler :=
  { statusAfter := 200, outcome := Outcome.returns none }

/-- A concrete configuration whose filter skips every request. -/
def alwaysFilterConfig : Config :=
  { filter := some (fun _ => true) }

/-! ### Helper lemmas -/

lemma startCount_append (a b : List Event) :
    startCount (a ++ b) = startCount a + startCount b := by
  simp [startCount]

lemma finishCount_append (a b : List Event) :
    finishCount (a ++ b) = finishCount a + finishCount b := by
  simp [finishCount]

lemma nextCount_append (a b : List Event) :
    nextCount (a ++ b) = nextCount a + nextCount b := by
  simp [nextCount]

lemma startCount_cons (e : Event) (es : List Event) :
    startCount (e :: es) = startWeight e + startCount es := by
  simp [startCount]

lemma finishCount_cons (e : Event) (es : List Event) :
    finishCount (e :: es) = finishWeight e + finishCount es := by
  simp [finishCount]

lemma nextCount_cons (e : Event) (es : List Event) :
    nextCount (e :: es) = nextWeight e + nextCount es := by
  simp [nextCount]

lemma startCount_modify (l : List (String × TagValue)) :
    startCount (l.map (fun kv => Event.setTag kv.1 kv.2)) = 0 := by
  induction l with
  | nil => rfl
  | cons a t ih => simpa [startCount_cons, startWeight] using ih

lemma finishCount_modify (l : List (String × TagValue)) :
    finishCount (l.map (fun kv => Event.setTag kv.1 kv.2)) = 0 := by
  induction l with
  | nil => rfl
  | cons a t ih => simpa [finishCount_cons, finishWeight] using ih

lemma nextCount_modify (l : List (String × TagValue)) :
    nextCount (l.map (fun kv => Event.setTag kv.1 kv.2)) = 0 := by
  induction l with
  | nil => rfl
  | cons a t ih => simpa [nextCount_cons, nextWeight] using ih

lemma nextInvoked_not_mem_modify (l : List (String × TagValue)) :
    Event.nextInvoked ∉ l.map (fun kv => Event.setTag kv.1 kv.2) := by
  simp [List.mem_map]

lemma startCount_deferBlock (err : Option GoErr) (s0 : Int) :
    startCount (deferBlock err s0) = 0 := by
  unfold deferBlock
  cases err <;>
    simp [startCount_append, startCount_cons, startCount, startWeight] <;>
    split <;>
    simp [startCount_cons, startCount, startWeight]

lemma finishCount_deferBlock (err : Option GoErr) (s0 : Int) :
    finishCount (deferBlock err s0) = 1 := by
  unfold deferBlock
  cases err <;>
    simp [finishCount_append, finishCount_cons, finishCount, finishWeight] <;>
    split <;>
    simp [finishCount_cons, finishCount, finishWeight]

lemma nextCount_deferBlock (err : Option GoErr) (s0 : Int) :
    nextCount (deferBlock err s0) = 0 := by
  unfold deferBlock
  cases err <;>
    simp [nextCount_append, nextCount_cons, nextCount, nextWeight] <;>
    split <;>
    simp [nextCount_cons, nextCount, nextWeight]

lemma statusTag_mem_deferBlock (err : Option GoErr) (s0 : Int) :
    Event.setTag "http.status_code" (TagValue.num (uint16 (finalStatus err s0)))
      ∈ deferBlock err s0 := by
  unfold deferBlock
  cases err <;> simp

lemma errorFlag_mem_deferBlock (err : Option GoErr) (s0 : Int) :
    (Event.setTag "error" (TagValue.boolVal true) ∈ deferBlock err s0) ↔
      StatusInternalServerError ≤ finalStatus err s0 := by
  unfold deferBlock
  cases err with
  | none =>
      by_cases hs : StatusInternalServerError ≤ finalStatus none s0 <;>
        simp_all [GE.ge]
  | some e =>
      by_cases hs : StatusInternalServerError ≤ finalStatus (some e) s0 <;>
        simp_all [GE.ge]

lemma runHandler_events (fc : FinalConfig) (ctx : Ctx) (h : Handler)
    (hf : isFiltered fc ctx = false) :
    (runHandler fc ctx h).events =
      (if fc.tracer.extractOk (buildCarrier ctx.requestHeaders)
        then Event.startChild (fc.operationName ctx)
        else Event.startRoot (fc.operationName ctx)) ::
      ((fc.modify ctx).map (fun kv => Event.setTag kv.1 kv.2) ++
        Event.storeLocal fc.parentSpanKey :: Event.nextInvoked ::
          deferBlock (errVar h.outcome) h.statusAfter) := by
  unfold runHandler
  rw [hf]
  simp

lemma runHandler_result (fc : FinalConfig) (ctx : Ctx) (h : Handler) :
    (runHandler fc ctx h).result = h.outcome := by
  unfold runHandler
  split <;> rfl

lemma finish_mem_deferBlock (err : Option GoErr) (s0 : Int) :
    Event.finish ∈ deferBlock err s0 := by
  unfold deferBlock
  cases err <;> simp

lemma errMessage_mem_deferBlock (e : GoErr) (s0 : Int) :
    Event.setTag "error.message" (TagValue.str (errMessage e)) ∈ deferBlock (some e) s0 := by
  unfold deferBlock
  simp

lemma startEvent_weights (c : Bool) (op : String) :
    startWeight (if c then Event.startChild op else Event.startRoot op) = 1 ∧
    finishWeight (if c then Event.startChild op else Event.startRoot op) = 0 ∧
    nextWeight (if c then Event.startChild op else Event.startRoot op) = 0 := by
  cases c <;> exact ⟨rfl, rfl, rfl⟩

/-! ### Claims -/

/-- Claim C1: for every non-filtered request, exactly one span is started and
exactly one span is finished, on every exit path of the handler chain —
normal return, returned error, or a panic unwinding through the middleware
(the deferred finish block runs unconditionally, and `Finish` is emitted
exactly once). -/
theorem c1_span_started_and_finished_once (cfgs : List Config) (ctx : Ctx) (h : Handler)
    (hf : isFiltered (finalizeConfig cfgs) ctx = false) :
    startCount (NewWithConfig cfgs ctx h).events = 1 ∧
    finishCount (NewWithConfig cfgs ctx h).events = 1 := by
  have he := runHandler_events (finalizeConfig cfgs) ctx h hf
  unfold NewWithConfig
  rw [he]
  constructor
  · rw [startCount_cons, startCount_append, startCount_modify, startCount_cons,
      startCount_cons, startCount_deferBlock, (startEvent_weights _ _).1]
    rfl
  · rw [finishCount_cons, finishCount_append, finishCount_modify, finishCount_cons,
      finishCount_cons, finishCount_deferBlock, (startEvent_weights _ _).2.1]
    rfl

/-- Witness for C1: at the empty configuration (no filter) with a handler that
panics, still one start and one finish. -/
theorem c1_witness :
    startCount (NewWithConfig [] sampleCtx { statusAfter := 200, outcome := Outcome.panics }).events = 1 ∧
    finishCount (NewWithConfig [] sampleCtx { statusAfter := 200, outcome := Outcome.panics }).events = 1 :=
  c1_span_started_and_finished_once [] sampleCtx
    { statusAfter := 200, outcome := Outcome.panics } rfl

/-- Claim C3: when the configured filter returns true, the adapter does no
tracing work (no span, no tags, no store write), invokes the next handler
exactly once, and returns its value unmodified. -/
theorem c3_filtered_request_skips_tracing (cfgs : List Config) (ctx : Ctx) (h : Handler)
    (hf : isFiltered (finalizeConfig cfgs) ctx = true) :
    (NewWithConfig cfgs ctx h).events = [Event.nextInvoked] ∧
    startCount (NewWithConfig cfgs ctx h).events = 0 ∧
    nextCount (NewWithConfig cfgs ctx h).events = 1 ∧
    (NewWithConfig cfgs ctx h).result = h.outcome := by
  unfold NewWithConfig runHandler
  rw [hf]
  exact ⟨rfl, rfl, rfl, rfl⟩

/-- Witness for C3: a filter that always skips, applied to a handler
returning a plain error — the error comes back untouched and the trace is
just the handler invocation. -/
theorem c3_witness :
    (NewWithConfig [alwaysFilterConfig] sampleCtx
        { statusAfter := 200, outcome := Outcome.returns (some (GoErr.plain "boom")) }).events =
      [Event.nextInvoked] ∧
    startCount (NewWithConfig [alwaysFilterConfig] sampleCtx
        { statusAfter := 200, outcome := Outcome.returns (some (GoErr.plain "boom")) }).events = 0 ∧
    nextCount (NewWithConfig [alwaysFilterConfig] sampleCtx
        { statusAfter := 200, outcome := Outcome.returns (some (GoErr.plain "boom")) }).events = 1 ∧
    (NewWithConfig [alwaysFilterConfig] sampleCtx
        { statusAfter := 200, outcome := Outcome.returns (some (GoErr.plain "boom")) }).result =
      Outcome.returns (some (GoErr.plain "boom")) :=
  c3_filtered_request_skips_tracing [alwaysFilterConfig] sampleCtx
    { statusAfter := 200, outcome := Outcome.returns (some (GoErr.plain "boom")) } rfl

/-- Claim C6: for every non-filtered request the adapter hands back exactly
the handler chain's own outcome — errors are neither swallowed nor altered,
panics pass through — and the span-finish event occurs unconditionally; no
tracing activity changes the returned value. -/
theorem c6_return_value_passthrough (cfgs : List Config) (ctx : Ctx) (h : Handler)
    (hf : isFiltered (finalizeConfig cfgs) ctx = false) :
    (NewWithConfig cfgs ctx h).result = h.outcome ∧
    finishCount (NewWithConfig cfgs ctx h).events = 1 ∧
    Event.finish ∈ (NewWithConfig cfgs ctx h).events := by
  have he := runHandler_events (finalizeConfig cfgs) ctx h hf
  refine ⟨runHandler_result _ _ _, ?_, ?_⟩
  · show finishCount (runHandler (finalizeConfig cfgs) ctx h).events = 1
    rw [he, finishCount_cons, finishCount_append, finishCount_modify, finishCount_cons,
      finishCount_cons, finishCount_deferBlock, (startEvent_weights _ _).2.1]
    rfl
  · show Event.finish ∈ (runHandler (finalizeConfig cfgs) ctx h).events
    rw [he]
    exact List.mem_cons_of_mem _ (List.mem_append_right _
      (List.mem_cons_of_mem _ (List.mem_cons_of_mem _ (finish_mem_deferBlock _ _))))

/-- Witness for C6: with no configuration, a handler returning a structured
error gets exactly that error back and the span is finished. -/
theorem c6_witness :
    (NewWithConfig [] sampleCtx
        { statusAfter := 200, outcome := Outcome.returns (some (GoErr.fiberError 404 "nf")) }).result =
      Outcome.returns (some (GoErr.fiberError 404 "nf")) ∧
    Event.finish ∈ (NewWithConfig [] sampleCtx
        { statusAfter := 200, outcome := Outcome.returns (some (GoErr.fiberError 404 "nf")) }).events :=
  ⟨(c6_return_value_passthrough [] sampleCtx
      { statusAfter := 200, outcome := Outcome.returns (some (GoErr.fiberError 404 "nf")) } rfl).1,
   (c6_return_value_passthrough [] sampleCtx
      { statusAfter := 200, outcome := Outcome.returns (some (GoErr.fiberError 404 "nf")) } rfl).2.2⟩

/-- Claim C4: for every non-filtered request, when context extraction from
the header carrier fails the middleware starts a new root span named by the
computed operation name, and when extraction succeeds it starts an RPC-server
continuation span instead; either way the extraction outcome never changes
what the middleware returns to its caller. -/
theorem c4_extraction_fallback (cfgs : List Config) (ctx : Ctx) (h : Handler)
    (hf : isFiltered (finalizeConfig cfgs) ctx = false) :
    ((finalizeConfig cfgs).tracer.extractOk (buildCarrier ctx.requestHeaders) = false →
      (NewWithConfig cfgs ctx h).events.head? =
        some (Event.startRoot ((finalizeConfig cfgs).operationName ctx))) ∧
    ((finalizeConfig cfgs).tracer.extractOk (buildCarrier ctx.requestHeaders) = true →
      (NewWithConfig cfgs ctx h).events.head? =
        some (Event.startChild ((finalizeConfig cfgs).operationName ctx))) ∧
    (NewWithConfig cfgs ctx h).result = h.outcome := by
  have he := runHandler_events (finalizeConfig cfgs) ctx h hf
  refine ⟨?_, ?_, runHandler_result _ _ _⟩
  · intro hx
    show (runHandler (finalizeConfig cfgs) ctx h).events.head? = _
    rw [he, hx]
    rfl
  · intro hx
    show (runHandler (finalizeConfig cfgs) ctx h).events.head? = _
    rw [he, hx]
    rfl

/-- Witness for C4: the defaulted (no-op) tracer never extracts a context, so
the run on a concrete request begins with a root span carrying the default
operation name, and the handler's nil return comes back unchanged. -/
theorem c4_witness :
    (NewWithConfig [] sampleCtx sampleHandler).events.head? =
      some (Event.startRoot "HTTP GET URL: /widgets") ∧
    (NewWithConfig [] sampleCtx sampleHandler).result = Outcome.returns none := by
  have h4 := c4_extraction_fallback [] sampleCtx sampleHandler rfl
  exact ⟨h4.1 rfl, h4.2.2⟩

/-- Claim C9: for every non-filtered request the span is written to the
request-scoped store under the configured parent-span key strictly before the
next handler is invoked: the trace splits as a prefix free of handler
invocations, then the store write, then the handler invocation. -/
theorem c9_span_stored_before_next (cfgs : List Config) (ctx : Ctx) (h : Handler)
    (hf : isFiltered (finalizeConfig cfgs) ctx = false) :
    ∃ pre suf, (NewWithConfig cfgs ctx h).events =
        pre ++ Event.storeLocal (finalizeConfig cfgs).parentSpanKey ::
          Event.nextInvoked :: suf ∧
      Event.nextInvoked ∉ pre := by
  have he := runHandler_events (finalizeConfig cfgs) ctx h hf
  refine ⟨(if (finalizeConfig cfgs).tracer.extractOk (buildCarrier ctx.requestHeaders)
      then Event.startChild ((finalizeConfig cfgs).operationName ctx)
      else Event.startRoot ((finalizeConfig cfgs).operationName ctx)) ::
      ((finalizeConfig cfgs).modify ctx).map (fun kv => Event.setTag kv.1 kv.2),
    deferBlock (errVar h.outcome) h.statusAfter, ?_, ?_⟩
  · show (runHandler (finalizeConfig cfgs) ctx h).events = _
    rw [he]
    simp
  · intro hmem
    rcases List.mem_cons.mp hmem with h1 | h2
    · revert h1
      split <;> intro h1 <;> exact Event.noConfusion h1
    · exact nextInvoked_not_mem_modify _ h2

/-- Witness for C9: on a concrete run with no configuration, the store write
under the default key immediately precedes the handler invocation. -/
theorem c9_witness :
    ∃ pre suf, (NewWithConfig [] sampleCtx sampleHandler).events =
        pre ++ Event.storeLocal "#defaultTracingParentSpanKey" ::
          Event.nextInvoked :: suf ∧
      Event.nextInvoked ∉ pre :=
  c9_span_stored_before_next [] sampleCtx sampleHandler rfl

/-- Claim C2: at span-finish time, a structured error with a nonzero code
overrides the status with that code (then the only remaining adjustment is
the 200-to-500 fallback) and records the error's message under the
error-message tag; a non-structured error records its text under the
error-message tag; and a generic error with the status still at the default
200 ends with an HTTP-status tag of 500 together with that message tag. -/
theorem c2_error_status_reconciliation (s0 code : Int) (msg txt : String)
    (hcode : code ≠ 0) :
    Event.setTag "error.message" (TagValue.str msg) ∈
      deferBlock (some (GoErr.fiberError code msg)) s0 ∧
    finalStatus (some (GoErr.fiberError code msg)) s0 =
      (if code = StatusOK then StatusInternalServerError else code) ∧
    Event.setTag "error.message" (TagValue.str txt) ∈
      deferBlock (some (GoErr.plain txt)) s0 ∧
    (s0 = StatusOK →
      Event.setTag "http.status_code" (TagValue.num 500) ∈
        deferBlock (some (GoErr.plain txt)) s0 ∧
      finalStatus (some (GoErr.plain txt)) s0 = StatusInternalServerError) := by
  have hplain : s0 = StatusOK → finalStatus (some (GoErr.plain txt)) s0 = StatusInternalServerError := by
    intro h200
    simp [finalStatus, h200]
  refine ⟨errMessage_mem_deferBlock _ _, ?_, errMessage_mem_deferBlock _ _, ?_⟩
  · simp [finalStatus, hcode]
  · intro h200
    refine ⟨?_, hplain h200⟩
    have hm := statusTag_mem_deferBlock (some (GoErr.plain txt)) s0
    rw [hplain h200] at hm
    exact hm

/-- Witness for C2: a generic error "boom" with the status at 200 produces
the 500 status tag and the message tag; a structured 404 error has its
status override evaluate to 404. -/
theorem c2_witness :
    Event.setTag "http.status_code" (TagValue.num 500) ∈
      deferBlock (some (GoErr.plain "boom")) 200 ∧
    Event.setTag "error.message" (TagValue.str "boom") ∈
      deferBlock (some (GoErr.plain "boom")) 200 ∧
    finalStatus (some (GoErr.fiberError 404 "nf")) 200 = 404 := by
  have h2 := c2_error_status_reconciliation 200 404 "nf" "boom" (by decide)
  refine ⟨(h2.2.2.2 rfl).1, h2.2.2.1, ?_⟩
  rw [h2.2.1]
  decide

/-- Claim C10: a structured error whose code is zero still gets its message
recorded under the error-message tag; the status keeps the response's current
value, forced to 500 only when that value is exactly 200. -/
theorem c10_zero_code_structured_error (s0 : Int) (msg : String) :
    Event.setTag "error.message" (TagValue.str msg) ∈
      deferBlock (some (GoErr.fiberError 0 msg)) s0 ∧
    finalStatus (some (GoErr.fiberError 0 msg)) s0 =
      (if s0 = StatusOK then StatusInternalServerError else s0) := by
  exact ⟨errMessage_mem_deferBlock _ _, by simp [finalStatus]⟩

/-- Witness for C10: a code-0 structured error over a 404 response keeps the
status at 404 while its message is tagged. -/
theorem c10_witness :
    Event.setTag "error.message" (TagValue.str "oops") ∈
      deferBlock (some (GoErr.fiberError 0 "oops")) 404 ∧
    finalStatus (some (GoErr.fiberError 0 "oops")) 404 = 404 := by
  have h10 := c10_zero_code_structured_error 404 "oops"
  refine ⟨h10.1, ?_⟩
  rw [h10.2]
  decide

/-- Counterexample to Claim C5 as stated: a structured error with code 66039
makes the final status 66039, but the status tag written is uint16-truncated
to 503, so the span does not carry the final numeric status code. -/
theorem c5_counterexample :
    Event.setTag "http.status_code" (TagValue.num 66039) ∉
      deferBlock (some (GoErr.fiberError 66039 "boom")) 200 ∧
    Event.setTag "http.status_code" (TagValue.num 503) ∈
      deferBlock (some (GoErr.fiberError 66039 "boom")) 200 := by
  decide

/-- Claim C5 (amended): for every non-filtered request the trace ends with
the span-finish block, whose HTTP-status tag is the final status truncated to
16 bits (the Go uint16 conversion) — equal to the final status whenever that
status lies in [0, 65536), so for every real HTTP code — and whose error flag
is set if and only if the final status is at least 500. -/
theorem c5_status_tag_and_error_flag (cfgs : List Config) (ctx : Ctx) (h : Handler)
    (hf : isFiltered (finalizeConfig cfgs) ctx = false) :
    (∃ pre, (NewWithConfig cfgs ctx h).events =
      pre ++ deferBlock (errVar h.outcome) h.statusAfter) ∧
    Event.setTag "http.status_code"
        (TagValue.num (uint16 (finalStatus (errVar h.outcome) h.statusAfter))) ∈
      deferBlock (errVar h.outcome) h.statusAfter ∧
    (0 ≤ finalStatus (errVar h.outcome) h.statusAfter →
      finalStatus (errVar h.outcome) h.statusAfter < 65536 →
      (uint16 (finalStatus (errVar h.outcome) h.statusAfter) : Int) =
        finalStatus (errVar h.outcome) h.statusAfter) ∧
    ((Event.setTag "error" (TagValue.boolVal true) ∈
        deferBlock (errVar h.outcome) h.statusAfter) ↔
      StatusInternalServerError ≤ finalStatus (errVar h.outcome) h.statusAfter) := by
  have he := runHandler_events (finalizeConfig cfgs) ctx h hf
  refine ⟨?_, statusTag_mem_deferBlock _ _, ?_, errorFlag_mem_deferBlock _ _⟩
  · refine ⟨(if (finalizeConfig cfgs).tracer.extractOk (buildCarrier ctx.requestHeaders)
        then Event.startChild ((finalizeConfig cfgs).operationName ctx)
        else Event.startRoot ((finalizeConfig cfgs).operationName ctx)) ::
        (((finalizeConfig cfgs).modify ctx).map (fun kv => Event.setTag kv.1 kv.2) ++
          [Event.storeLocal (finalizeConfig cfgs).parentSpanKey, Event.nextInvoked]), ?_⟩
    show (runHandler (finalizeConfig cfgs) ctx h).events = _
    rw [he]
    simp
  · intro h0 hlt
    unfold uint16
    rw [Int.emod_eq_of_lt h0 hlt]
    exact Int.toNat_of_nonneg h0

/-- Witness for C5 (amended): a structured 404 yields a 404 status tag and no
error flag, while a structured 503 sets the error flag. -/
theorem c5_witness :
    Event.setTag "http.status_code" (TagValue.num 404) ∈
      deferBlock (some (GoErr.fiberError 404 "nf")) 200 ∧
    Event.setTag "error" (TagValue.boolVal true) ∉
      deferBlock (some (GoErr.fiberError 404 "nf")) 200 ∧
    Event.setTag "error" (TagValue.boolVal true) ∈
      deferBlock (some (GoErr.fiberError 503 "bad")) 200 := by
  have h404 := c5_status_tag_and_error_flag [] sampleCtx
      { statusAfter := 200, outcome := Outcome.returns (some (GoErr.fiberError 404 "nf")) } rfl
  have h503 := c5_status_tag_and_error_flag [] sampleCtx
      { statusAfter := 200, outcome := Outcome.returns (some (GoErr.fiberError 503 "bad")) } rfl
  refine ⟨?_, ?_, ?_⟩
  · exact h404.2.1
  · intro hmem
    exact absurd (h404.2.2.2.mp hmem)
      (by decide : ¬ StatusInternalServerError ≤
        finalStatus (some (GoErr.fiberError 404 "nf")) 200)
  · exact h503.2.2.2.mpr
      (by decide : StatusInternalServerError ≤
        finalStatus (some (GoErr.fiberError 503 "bad")) 200)

/-- Claim C7: with the operation-name option unset, the finalized
configuration names spans "HTTP " + method + " URL: " + path; for the
concrete GET request to /widgets this is exactly "HTTP GET URL: /widgets". -/
theorem c7_default_operation_name (cfg : Config) (ctx : Ctx)
    (hop : cfg.operationName = none) :
    (finalizeConfig [cfg]).operationName ctx =
      "HTTP " ++ ctx.method ++ " URL: " ++ ctx.path ∧
    (finalizeConfig [cfg]).operationName sampleCtx = "HTTP GET URL: /widgets" := by
  have h1 : (finalizeConfig [cfg]).operationName = defaultOperationName := by
    simp [finalizeConfig, hop]
  rw [h1]
  exact ⟨rfl, rfl⟩

/-- Witness for C7: at the empty configuration the operation name of the GET
/widgets request evaluates to the documented string. -/
theorem c7_witness :
    (finalizeConfig [{}]).operationName sampleCtx = "HTTP GET URL: /widgets" :=
  (c7_default_operation_name {} sampleCtx rfl).2

/-- Claim C8: construction backfills every missing configuration field with
its default — nil tracer becomes the no-op tracer (whose extraction never
succeeds), empty parent-span key becomes the fixed sentinel, empty component
name becomes "fiber/v2", nil Modify and OperationName become the documented
defaults — and `NewWithConfig` is exactly the per-request function bound to
the finalized configuration. -/
theorem c8_construction_backfills_defaults (cfg : Config)
    (ht : cfg.tracer = none) (hk : cfg.parentSpanKey = "")
    (hc : cfg.componentName = "") (hm : cfg.modify = none)
    (ho : cfg.operationName = none) :
    (finalizeConfig [cfg]).tracer = noopTracer ∧
    (finalizeConfig [cfg]).parentSpanKey = "#defaultTracingParentSpanKey" ∧
    (finalizeConfig [cfg]).componentName = "fiber/v2" ∧
    (finalizeConfig [cfg]).modify = defaultModify ∧
    (finalizeConfig [cfg]).operationName = defaultOperationName ∧
    (∀ carrier, noopTracer.extractOk carrier = false) ∧
    NewWithConfig [cfg] = runHandler (finalizeConfig [cfg]) := by
  refine ⟨?_, ?_, ?_, ?_, ?_, fun _ => rfl, rfl⟩ <;>
    simp [finalizeConfig, ht, hk, hc, hm, ho, DefaultConfig, DefaultParentSpanKey,
      DefaultComponentName]

/-- Witness for C8: the zero-value configuration gets the sentinel key, the
component label, the no-op tracer and the default hooks. -/
theorem c8_witness :
    (finalizeConfig [{}]).tracer = noopTracer ∧
    (finalizeConfig [{}]).parentSpanKey = "#defaultTracingParentSpanKey" ∧
    (finalizeConfig [{}]).componentName = "fiber/v2" :=
  ⟨(c8_construction_backfills_defaults {} rfl rfl rfl rfl rfl).1,
   (c8_construction_backfills_defaults {} rfl rfl rfl rfl rfl).2.1,
   (c8_construction_backfills_defaults {} rfl rfl rfl rfl rfl).2.2.1⟩

end FiberTracing
